import Mathlib

/-!
Shallow embedding of the personal-blog web application (`src/app.py`):
a Flask app with four persisted entities (User, Post, FriendRequest,
Notification), cookie-session authentication, and one handler per route.
Each handler is embedded as a pure function from the persistent store,
the session (the optional logged-in user id) and the parsed request data
to the updated store and a view directive (render or redirect).

SQLAlchemy autoincrement primary keys are embedded as explicit counters
in the store.  `db.session.commit` at the end of a handler is modelled by
returning the updated store; a handler that raises before committing
(e.g. an attribute error on a missing user row) returns the original
store together with a `serverError` directive.
-/

namespace Blog

/-- `User` model of `app.py` (photo/wallpaper/bio/created_at omitted
fields kept, timestamps dropped as no handler branches on them). -/
structure User where
  id : Nat
  username : String
  password : String
  photo : Option String := none
  wallpaper : Option String := none
  bio : Option String := none
  deriving DecidableEq, Repr

/-- `Post` model of `app.py`. -/
structure Post where
  id : Nat
  title : String
  content : String
  user_id : Nat
  deriving DecidableEq, Repr

/-- `FriendRequest` model of `app.py`; `status` is one of the strings
"pending", "accepted", "rejected", defaulting to "pending". -/
structure FriendRequest where
  id : Nat
  sender_id : Nat
  receiver_id : Nat
  status : String := "pending"
  deriving DecidableEq, Repr

/-- `Notification` model of `app.py` (timestamp dropped; rows are
appended in order, so list order is creation order). -/
structure Notification where
  id : Nat
  user_id : Nat
  message : String
  deriving DecidableEq, Repr

/-- The persistent store: the four tables plus the autoincrement
counters for the primary keys of the rows handlers create. -/
structure Store where
  users : List User
  posts : List Post
  requests : List FriendRequest
  notifs : List Notification
  nextUserId : Nat
  nextPostId : Nat
  nextRequestId : Nat
  nextNotifId : Nat
  deriving DecidableEq, Repr

/-- A view directive: where the handler sends the browser. -/
inductive Response where
  | redirectLogin
  | redirectHome
  | redirectRegister
  | redirectFriendRequests
  | redirectSearch
  | redirectProfile
  | notFound
  | serverError
  | render (page : String)
  deriving DecidableEq, Repr

/-- The session: `session.get('user_id')` — `none` when not logged in. -/
abbrev Session := Option Nat

/-- `User.query.get(i)`: look a user up by primary key. -/
def findUserById (s : Store) (i : Nat) : Option User :=
  s.users.find? (fun u => u.id == i)

/-- `User.query.filter_by(username=...).first()`. -/
def findUserByUsername (s : Store) (name : String) : Option User :=
  s.users.find? (fun u => u.username == name)

/-- `Post.query.get(i)`. -/
def findPostById (s : Store) (i : Nat) : Option Post :=
  s.posts.find? (fun p => p.id == i)

/-- `FriendRequest.query.get(i)`. -/
def findRequestById (s : Store) (i : Nat) : Option FriendRequest :=
  s.requests.find? (fun r => r.id == i)

/-- Does the character list `h` start with `n`?  Building block for the
substring test of `User.username.contains(query)`. -/
def charsStartWith : List Char → List Char → Bool
  | _, [] => true
  | [], _ :: _ => false
  | a :: as, b :: bs => a == b && charsStartWith as bs

/-- Does the character list `h` contain `n` as a contiguous run? -/
def charsContain : List Char → List Char → Bool
  | [], n => charsStartWith [] n
  | a :: as, n => charsStartWith (a :: as) n || charsContain as n

/-- `haystack.contains(needle)` — substring containment, embedding the
`User.username.contains(query)` filter of the search route. -/
def strContains (haystack needle : String) : Bool :=
  charsContain haystack.data needle.data

/-- Model of werkzeug's `generate_password_hash` as an injective tagging
of the raw password; the app treats the hash as opaque and only ever
feeds it back to `check_password_hash`. -/
def generate_password_hash (raw : String) : String :=
  "pbkdf2-sha256$" ++ raw

/-- Model of werkzeug's `check_password_hash`: verification succeeds
exactly when the stored hash was generated from this raw password. -/
def check_password_hash (hash raw : String) : Bool :=
  hash == generate_password_hash raw

/-- `register` route (POST branch when form data is present): duplicate
username is rejected, otherwise a user row is created with the hashed
password. -/
def register (s : Store) (form : Option (String × String)) : Store × Response :=
  match form with
  | none => (s, .render "register")
  | some (username, rawPassword) =>
    if (findUserByUsername s username).isSome then
      (s, .redirectRegister)
    else
      ({ s with
          users := s.users ++
            [{ id := s.nextUserId, username := username,
               password := generate_password_hash rawPassword }],
          nextUserId := s.nextUserId + 1 },
       .redirectLogin)

/-- `login` route (POST branch): on success the session is bound to the
found user's id; on failure the session and store are untouched and the
login page is re-rendered with a flash. -/
def login (s : Store) (sess : Session) (username rawPassword : String) :
    Store × Session × Response :=
  match findUserByUsername s username with
  | some u =>
    if check_password_hash u.password rawPassword then
      (s, some u.id, .redirectHome)
    else
      (s, sess, .render "login")
  | none => (s, sess, .render "login")

/-- `logout` route. -/
def logout (s : Store) (_sess : Session) : Store × Session × Response :=
  (s, none, .redirectLogin)

/-- `home` route: requires a session, renders the feed. -/
def home (s : Store) (sess : Session) : Store × Response :=
  match sess with
  | none => (s, .redirectLogin)
  | some _ => (s, .render "home")

/-- `create` route: requires a session; the POST branch (form present)
appends a post owned by the session user. -/
def create (s : Store) (sess : Session) (form : Option (String × String)) :
    Store × Response :=
  match sess with
  | none => (s, .redirectLogin)
  | some uid =>
    match form with
    | none => (s, .render "create")
    | some (title, content) =>
      ({ s with
          posts := s.posts ++
            [{ id := s.nextPostId, title := title, content := content,
               user_id := uid }],
          nextPostId := s.nextPostId + 1 },
       .redirectHome)

/-- `edit` route: 404 on a missing post; a session user other than the
owner (including no session at all) is silently redirected home; the
POST branch rewrites title and content of the post. -/
def edit (s : Store) (sess : Session) (postId : Nat)
    (form : Option (String × String)) : Store × Response :=
  match findPostById s postId with
  | none => (s, .notFound)
  | some post =>
    if sess ≠ some post.user_id then
      (s, .redirectHome)
    else
      match form with
      | none => (s, .render "edit")
      | some (title, content) =>
        ({ s with
            posts := s.posts.map (fun p =>
              if p.id == postId then
                { p with title := title, content := content }
              else p) },
         .redirectHome)

/-- `delete` route: 404 on a missing post; the row is removed only when
the session user owns it; either way the browser goes home. -/
def delete (s : Store) (sess : Session) (postId : Nat) : Store × Response :=
  match findPostById s postId with
  | none => (s, .notFound)
  | some post =>
    if sess == some post.user_id then
      ({ s with posts := s.posts.eraseP (fun p => p.id == postId) },
       .redirectHome)
    else
      (s, .redirectHome)

/-- `send_request` route: requires a session; a duplicate check on the
sender→receiver pair (any status) guards creation; on creation a
pending request and a notification to the receiver are appended.  The
receiver id is never validated against the user table.  The sender is
looked up for the message text; a dangling session id would raise
before commit. -/
def send_request (s : Store) (sess : Session) (receiver_id : Nat) :
    Store × Response :=
  match sess with
  | none => (s, .redirectLogin)
  | some uid =>
    match s.requests.find? (fun r =>
        r.sender_id == uid && r.receiver_id == receiver_id) with
    | some _ => (s, .redirectSearch)
    | none =>
      match findUserById s uid with
      | none => (s, .serverError)
      | some sender =>
        ({ s with
            requests := s.requests ++
              [{ id := s.nextRequestId, sender_id := uid,
                 receiver_id := receiver_id, status := "pending" }],
            nextRequestId := s.nextRequestId + 1,
            notifs := s.notifs ++
              [{ id := s.nextNotifId, user_id := receiver_id,
                 message := sender.username ++ " sent you a friend request!" }],
            nextNotifId := s.nextNotifId + 1 },
         .redirectSearch)

/-- `accept_request` route: 404 on a missing request; only the receiver
may act, and no status guard exists — the status is set to "accepted"
whatever it was, and one notification to the sender is appended.
Anyone else (or no session) falls through to the redirect untouched. -/
def accept_request (s : Store) (sess : Session) (request_id : Nat) :
    Store × Response :=
  match findRequestById s request_id with
  | none => (s, .notFound)
  | some fr =>
    if sess == some fr.receiver_id then
      match findUserById s fr.receiver_id with
      | none => (s, .serverError)
      | some receiver =>
        ({ s with
            requests := s.requests.map (fun r =>
              if r.id == request_id then { r with status := "accepted" }
              else r),
            notifs := s.notifs ++
              [{ id := s.nextNotifId, user_id := fr.sender_id,
                 message := receiver.username ++ " accepted your friend request!" }],
            nextNotifId := s.nextNotifId + 1 },
         .redirectFriendRequests)
    else
      (s, .redirectFriendRequests)

/-- `reject_request` route: identical shape to `accept_request` with
status "rejected" and the rejection message. -/
def reject_request (s : Store) (sess : Session) (request_id : Nat) :
    Store × Response :=
  match findRequestById s request_id with
  | none => (s, .notFound)
  | some fr =>
    if sess == some fr.receiver_id then
      match findUserById s fr.receiver_id with
      | none => (s, .serverError)
      | some receiver =>
        ({ s with
            requests := s.requests.map (fun r =>
              if r.id == request_id then { r with status := "rejected" }
              else r),
            notifs := s.notifs ++
              [{ id := s.nextNotifId, user_id := fr.sender_id,
                 message := receiver.username ++ " rejected your friend request." }],
            nextNotifId := s.nextNotifId + 1 },
         .redirectFriendRequests)
    else
      (s, .redirectFriendRequests)

/-- The friend id list of the `friends` route: receivers of accepted
sent requests followed by senders of accepted received requests. -/
def friend_ids (s : Store) (uid : Nat) : List Nat :=
  (s.requests.filter (fun f =>
      f.sender_id == uid && f.status == "accepted")).map (fun f => f.receiver_id)
    ++ (s.requests.filter (fun f =>
      f.receiver_id == uid && f.status == "accepted")).map (fun f => f.sender_id)

/-- `User.query.filter(User.id.in_(friend_ids)).all()` of the `friends`
route: the user rows whose id occurs among the friend ids. -/
def friendsList (s : Store) (uid : Nat) : List User :=
  s.users.filter (fun u => (friend_ids s uid).contains u.id)

/-- `friends` route: requires a session, renders the friend list. -/
def friends (s : Store) (sess : Session) : Store × Response :=
  match sess with
  | none => (s, .redirectLogin)
  | some _ => (s, .render "friends")

/-- Pending incoming requests of the `friend_requests` route. -/
def pendingIncoming (s : Store) (uid : Nat) : List FriendRequest :=
  s.requests.filter (fun r => r.receiver_id == uid && r.status == "pending")

/-- `friend_requests` route: requires a session. -/
def friend_requests (s : Store) (sess : Session) : Store × Response :=
  match sess with
  | none => (s, .redirectLogin)
  | some _ => (s, .render "friend_requests")

/-- The exclusion set of the `search` route: the searcher plus every
counterparty of any request touching the searcher, in either direction
and of any status. -/
def excluded_ids (s : Store) (uid : Nat) : List Nat :=
  [uid]
    ++ (s.requests.filter (fun r => r.sender_id == uid)).map (fun r => r.receiver_id)
    ++ (s.requests.filter (fun r => r.receiver_id == uid)).map (fun r => r.sender_id)

/-- The result rows of the `search` route's POST branch: users whose
username contains the query string and whose id is not excluded. -/
def searchResults (s : Store) (uid : Nat) (query : String) : List User :=
  s.users.filter (fun u =>
    strContains u.username query && !((excluded_ids s uid).contains u.id))

/-- `search` route: requires a session; the GET branch renders an empty
result list, the POST branch (query present) runs the search. -/
def search_users (s : Store) (sess : Session) (_query : Option String) :
    Store × Response :=
  match sess with
  | none => (s, .redirectLogin)
  | some _ => (s, .render "search")

/-- `profile` route: requires a session, renders counts and latest
notifications; no mutation. -/
def profile (s : Store) (sess : Session) : Store × Response :=
  match sess with
  | none => (s, .redirectLogin)
  | some _ => (s, .render "profile")

/-- Model of werkzeug's `secure_filename` (external sanitizer; its
transformation of the name is irrelevant to store-level properties). -/
def secure_filename (name : String) : String := name

/-- `edit_profile` route: requires a session; the POST branch sets the
bio and any uploaded photo/wallpaper filename on the session user's
row.  Form data: bio plus the optional upload filenames. -/
def edit_profile (s : Store) (sess : Session)
    (form : Option (String × Option String × Option String)) :
    Store × Response :=
  match sess with
  | none => (s, .redirectLogin)
  | some uid =>
    match form with
    | none => (s, .render "edit_profile")
    | some (bio, photo, wallpaper) =>
      ({ s with
          users := s.users.map (fun u =>
            if u.id == uid then
              { u with
                  bio := some bio,
                  photo := match photo with
                    | some f => some (secure_filename f)
                    | none => u.photo,
                  wallpaper := match wallpaper with
                    | some f => some (secure_filename f)
                    | none => u.wallpaper }
            else u) },
       .redirectProfile)

/-! ## Helper lemmas -/

theorem charsStartWith_iff (h n : List Char) :
    charsStartWith h n = true ↔ ∃ t, h = n ++ t := by
  induction n generalizing h with
  | nil => simp [charsStartWith]
  | cons b bs ih =>
    cases h with
    | nil => simp [charsStartWith]
    | cons a as =>
      simp only [charsStartWith, Bool.and_eq_true, beq_iff_eq, ih, List.cons_append]
      constructor
      · rintro ⟨rfl, t, rfl⟩
        exact ⟨t, rfl⟩
      · rintro ⟨t, ht⟩
        injection ht with h1 h2
        exact ⟨h1, t, h2⟩

theorem charsContain_iff (h n : List Char) :
    charsContain h n = true ↔ ∃ pre suf, h = pre ++ n ++ suf := by
  induction h with
  | nil =>
    simp only [charsContain, charsStartWith_iff]
    constructor
    · rintro ⟨t, ht⟩
      rcases List.append_eq_nil.mp ht.symm with ⟨rfl, rfl⟩
      exact ⟨[], [], rfl⟩
    · rintro ⟨pre, suf, hps⟩
      rcases List.append_eq_nil.mp hps.symm with ⟨h1, rfl⟩
      rcases List.append_eq_nil.mp h1 with ⟨rfl, rfl⟩
      exact ⟨[], rfl⟩
  | cons a as ih =>
    simp only [charsContain, Bool.or_eq_true, charsStartWith_iff, ih]
    constructor
    · rintro (⟨t, ht⟩ | ⟨pre, suf, hps⟩)
      · exact ⟨[], t, by simpa using ht⟩
      · exact ⟨a :: pre, suf, by simp [hps]⟩
    · rintro ⟨pre, suf, hps⟩
      cases pre with
      | nil => exact Or.inl ⟨suf, by simpa using hps⟩
      | cons b bt =>
        injection hps with h1 h2
        exact Or.inr ⟨bt, suf, h2⟩

theorem strContains_iff (haystack needle : String) :
    strContains haystack needle = true ↔
      ∃ pre suf, haystack.data = pre ++ needle.data ++ suf :=
  charsContain_iff haystack.data needle.data

theorem mem_excluded_ids (s : Store) (uid x : Nat) :
    x ∈ excluded_ids s uid ↔
      x = uid ∨ (∃ r ∈ s.requests, r.sender_id = uid ∧ r.receiver_id = x) ∨
        (∃ r ∈ s.requests, r.receiver_id = uid ∧ r.sender_id = x) := by
  simp only [excluded_ids, List.mem_append, List.mem_singleton, List.mem_map,
    List.mem_filter, beq_iff_eq]
  constructor
  · rintro ((rfl | ⟨r, ⟨hr, hs⟩, rfl⟩) | ⟨r, ⟨hr, hs⟩, rfl⟩)
    · exact Or.inl rfl
    · exact Or.inr (Or.inl ⟨r, hr, hs, rfl⟩)
    · exact Or.inr (Or.inr ⟨r, hr, hs, rfl⟩)
  · rintro (rfl | ⟨r, hr, hs, rfl⟩ | ⟨r, hr, hs, rfl⟩)
    · exact Or.inl (Or.inl rfl)
    · exact Or.inl (Or.inr ⟨r, ⟨hr, hs⟩, rfl⟩)
    · exact Or.inr ⟨r, ⟨hr, hs⟩, rfl⟩

theorem send_request_dup (s : Store) (A B : Nat) (fr : FriendRequest)
    (hfr : s.requests.find? (fun r => r.sender_id == A && r.receiver_id == B) =
      some fr) :
    send_request s (some A) B = (s, .redirectSearch) := by
  simp [send_request, hfr]

theorem find?_id_map_update (l : List FriendRequest) (rid : Nat)
    (g : FriendRequest → FriendRequest) (hg : ∀ r, (g r).id = r.id)
    (fr : FriendRequest) (h : l.find? (fun r => r.id == rid) = some fr) :
    (l.map (fun r => if r.id == rid then g r else r)).find?
      (fun r => r.id == rid) = some (g fr) := by
  induction l with
  | nil => simp at h
  | cons a t ih =>
    by_cases ha : a.id = rid
    · rw [List.find?_cons_of_pos _ (by simp [ha])] at h
      injection h with h
      subst h
      simp only [List.map_cons, ha, beq_self_eq_true, if_true]
      exact List.find?_cons_of_pos _ (by simp [hg, ha])
    · rw [List.find?_cons_of_neg _ (by simp [ha])] at h
      simp only [List.map_cons, if_neg (by simp [ha] : ¬((a.id == rid) = true))]
      rw [List.find?_cons_of_neg _ (by simp [ha])]
      exact ih h

theorem find?_id_append_fresh (l : List FriendRequest) (x : FriendRequest)
    (hfresh : ∀ r ∈ l, r.id ≠ x.id) :
    (l ++ [x]).find? (fun r => r.id == x.id) = some x := by
  induction l with
  | nil => simp [List.find?]
  | cons a t ih =>
    rw [List.cons_append,
      List.find?_cons_of_neg _ (by simp [hfresh a (by simp)])]
    exact ih fun r hr => hfresh r (by simp [hr])

theorem find?_username_unique (l : List User) (u : User) (hu : u ∈ l)
    (huniq : (l.map (fun v => v.username)).Nodup) :
    l.find? (fun v => v.username == u.username) = some u := by
  induction l with
  | nil => simp at hu
  | cons a t ih =>
    rw [List.map_cons, List.nodup_cons] at huniq
    rcases List.mem_cons.mp hu with rfl | hmem
    · exact List.find?_cons_of_pos _ (by simp)
    · have hne : (a.username == u.username) = false := by
        by_cases he : a.username = u.username
        · exact absurd (he.symm ▸ List.mem_map_of_mem (fun v => v.username) hmem)
            huniq.1
        · simp [he]
      simp only [List.find?_cons, hne]
      exact ih hmem huniq.2

/-! ## Concrete example data -/

/-- Example user with id 1. -/
def alice : User :=
  { id := 1, username := "alice", password := generate_password_hash "alicepw" }

/-- Example user with id 2. -/
def bob : User :=
  { id := 2, username := "bob", password := generate_password_hash "bobpw" }

/-- A small concrete store: two users, one post owned by alice, one
pending friend request from alice to bob. -/
def exStore : Store :=
  { users := [alice, bob],
    posts := [{ id := 1, title := "hello", content := "first post", user_id := 1 }],
    requests := [{ id := 1, sender_id := 1, receiver_id := 2, status := "pending" }],
    notifs := [],
    nextUserId := 3, nextPostId := 2, nextRequestId := 2, nextNotifId := 1 }

/-- Concrete store with an already-accepted request from alice to bob. -/
def exStoreC4 : Store :=
  { users := [alice, bob],
    posts := [],
    requests := [{ id := 1, sender_id := 1, receiver_id := 2, status := "accepted" }],
    notifs := [],
    nextUserId := 3, nextPostId := 1, nextRequestId := 2, nextNotifId := 1 }

/-- Concrete store with a single user and no requests. -/
def exStoreC5 : Store :=
  { users := [alice], posts := [], requests := [], notifs := [],
    nextUserId := 2, nextPostId := 1, nextRequestId := 1, nextNotifId := 1 }

/-! ## Claims -/

/-- C1: `searchCandidates(U, q)` returns exactly the users whose
username contains `q` as a substring, excluding `U` itself and excluding
every user connected to `U` by a FriendRequest in either direction of
any status — in particular a user rejected long ago never reappears. -/
theorem search_users_candidates (s : Store) (uid : Nat) (q : String) (u : User) :
    u ∈ searchResults s uid q ↔
      u ∈ s.users ∧ (∃ pre suf, u.username.data = pre ++ q.data ++ suf) ∧
      u.id ≠ uid ∧
      ∀ r ∈ s.requests,
        ¬(r.sender_id = uid ∧ r.receiver_id = u.id) ∧
        ¬(r.receiver_id = uid ∧ r.sender_id = u.id) := by
  unfold searchResults
  rw [List.mem_filter]
  have hcontains : ∀ l : List Nat, (!l.contains u.id) = true ↔ u.id ∉ l := by
    intro l
    simp [List.contains]
  rw [Bool.and_eq_true, strContains_iff, hcontains, mem_excluded_ids]
  constructor
  · rintro ⟨hu, hsub, hnot⟩
    refine ⟨hu, hsub, fun he => hnot (Or.inl he), fun r hr => ⟨?_, ?_⟩⟩
    · rintro ⟨h1, h2⟩
      exact hnot (Or.inr (Or.inl ⟨r, hr, h1, h2⟩))
    · rintro ⟨h1, h2⟩
      exact hnot (Or.inr (Or.inr ⟨r, hr, h1, h2⟩))
  · rintro ⟨hu, hsub, hne, hreq⟩
    refine ⟨hu, hsub, ?_⟩
    rintro (he | ⟨r, hr, h1, h2⟩ | ⟨r, hr, h1, h2⟩)
    · exact hne he
    · exact (hreq r hr).1 ⟨h1, h2⟩
    · exact (hreq r hr).2 ⟨h1, h2⟩

/-- C2: responding to a friend request is a no-op on the store unless
the acting session is the request's receiver; when it is, the status is
set to the decision and exactly one notification addressed to the
request's sender is appended. -/
theorem respond_receiver_gate (s : Store) (A : Session) (rid : Nat)
    (fr : FriendRequest) (w : User)
    (hfind : findRequestById s rid = some fr)
    (hw : findUserById s fr.receiver_id = some w) :
    (A ≠ some fr.receiver_id →
      accept_request s A rid = (s, .redirectFriendRequests) ∧
      reject_request s A rid = (s, .redirectFriendRequests)) ∧
    (A = some fr.receiver_id →
      accept_request s A rid =
        ({ s with
            requests := s.requests.map (fun r =>
              if r.id == rid then { r with status := "accepted" } else r),
            notifs := s.notifs ++
              [{ id := s.nextNotifId, user_id := fr.sender_id,
                 message := w.username ++ " accepted your friend request!" }],
            nextNotifId := s.nextNotifId + 1 },
         .redirectFriendRequests) ∧
      reject_request s A rid =
        ({ s with
            requests := s.requests.map (fun r =>
              if r.id == rid then { r with status := "rejected" } else r),
            notifs := s.notifs ++
              [{ id := s.nextNotifId, user_id := fr.sender_id,
                 message := w.username ++ " rejected your friend request." }],
            nextNotifId := s.nextNotifId + 1 },
         .redirectFriendRequests)) := by
  constructor
  · intro hne
    have hb : (A == some fr.receiver_id) = false := by
      simp only [beq_eq_false_iff_ne, ne_eq]
      exact hne
    constructor
    · simp [accept_request, hfind, hb]
    · simp [reject_request, hfind, hb]
  · rintro rfl
    constructor
    · simp [accept_request, hfind, hw]
    · simp [reject_request, hfind, hw]

/-- Witness for C2: in the concrete store, user 3 (not the receiver of
request 1) cannot change it. -/
theorem respond_receiver_gate_witness :
    accept_request exStore (some 3) 1 = (exStore, .redirectFriendRequests) ∧
    reject_request exStore (some 3) 1 = (exStore, .redirectFriendRequests) :=
  (respond_receiver_gate exStore (some 3) 1
    { id := 1, sender_id := 1, receiver_id := 2, status := "pending" }
    bob rfl rfl).1 (by decide)

/-- C3: sendRequest creates a pending request and a notification to the
receiver only when no sender→receiver request of any status exists; when
one exists nothing changes, so two successive calls leave exactly one
sender→receiver row. -/
theorem send_request_once (s : Store) (A B : Nat) (sender : User)
    (hA : findUserById s A = some sender) :
    (∀ fr, s.requests.find? (fun r => r.sender_id == A && r.receiver_id == B) =
        some fr → send_request s (some A) B = (s, .redirectSearch)) ∧
    (s.requests.find? (fun r => r.sender_id == A && r.receiver_id == B) = none →
      (send_request s (some A) B).1 =
        { s with
            requests := s.requests ++
              [{ id := s.nextRequestId, sender_id := A, receiver_id := B,
                 status := "pending" }],
            nextRequestId := s.nextRequestId + 1,
            notifs := s.notifs ++
              [{ id := s.nextNotifId, user_id := B,
                 message := sender.username ++ " sent you a friend request!" }],
            nextNotifId := s.nextNotifId + 1 } ∧
      (send_request (send_request s (some A) B).1 (some A) B).1 =
        (send_request s (some A) B).1 ∧
      ((send_request (send_request s (some A) B).1 (some A) B).1.requests.filter
          (fun r => r.sender_id == A && r.receiver_id == B)).length = 1) := by
  constructor
  · intro fr hfr
    simp [send_request, hfr]
  · intro hnone
    have h1 : (send_request s (some A) B).1 =
        { s with
            requests := s.requests ++
              [{ id := s.nextRequestId, sender_id := A, receiver_id := B,
                 status := "pending" }],
            nextRequestId := s.nextRequestId + 1,
            notifs := s.notifs ++
              [{ id := s.nextNotifId, user_id := B,
                 message := sender.username ++ " sent you a friend request!" }],
            nextNotifId := s.nextNotifId + 1 } := by
      simp [send_request, hnone, hA]
    have hfind2 : (send_request s (some A) B).1.requests.find?
        (fun r => r.sender_id == A && r.receiver_id == B) =
        some { id := s.nextRequestId, sender_id := A, receiver_id := B,
               status := "pending" } := by
      rw [h1]
      rw [List.find?_append, hnone]
      simp [List.find?]
    have h2 : (send_request (send_request s (some A) B).1 (some A) B).1 =
        (send_request s (some A) B).1 := by
      rw [send_request_dup _ _ _ _ hfind2]
    refine ⟨h1, h2, ?_⟩
    rw [h2, h1]
    rw [List.filter_append]
    have hfilter : s.requests.filter
        (fun r => r.sender_id == A && r.receiver_id == B) = [] := by
      rw [List.filter_eq_nil_iff]
      intro r hr
      exact List.find?_eq_none.mp hnone r hr
    rw [hfilter]
    simp [List.filter]

/-- Witness for C3: in the concrete store, bob (user 2) has never sent a
request to alice (user 1); after two sends exactly one 2→1 row exists. -/
theorem send_request_once_witness :
    ((send_request (send_request exStore (some 2) 1).1 (some 2) 1).1.requests.filter
        (fun r => r.sender_id == 2 && r.receiver_id == 1)).length = 1 :=
  ((send_request_once exStore 2 1 bob rfl).2 rfl).2.2

/-- C4 counterexample: the claim that an accepted request's status never
changes again is false — in the concrete store request 1 is already
'accepted', yet the receiver's reject flips it to 'rejected'. -/
theorem status_reversal_possible :
    (findRequestById exStoreC4 1).map (fun r => r.status) = some "accepted" ∧
    (findRequestById (reject_request exStoreC4 (some 2) 1).1 1).map
      (fun r => r.status) = some "rejected" :=
  ⟨rfl, rfl⟩

/-- C4 amended: accept and reject set the status to their decision
unconditionally whenever the actor is the receiver — pending→accepted
and pending→rejected occur, but so do accepted→rejected and
rejected→accepted; no guard prevents reversal of a resolved request. -/
theorem respond_sets_status_unconditionally (s : Store) (rid : Nat)
    (fr : FriendRequest) (w : User)
    (hfind : findRequestById s rid = some fr)
    (hw : findUserById s fr.receiver_id = some w) :
    (findRequestById (accept_request s (some fr.receiver_id) rid).1 rid).map
      (fun r => r.status) = some "accepted" ∧
    (findRequestById (reject_request s (some fr.receiver_id) rid).1 rid).map
      (fun r => r.status) = some "rejected" := by
  constructor
  · have hstep : (accept_request s (some fr.receiver_id) rid).1.requests =
        s.requests.map (fun r =>
          if r.id == rid then { r with status := "accepted" } else r) := by
      simp [accept_request, hfind, hw]
    unfold findRequestById
    rw [hstep, find?_id_map_update s.requests rid
      (fun r => { r with status := "accepted" }) (fun r => rfl) fr hfind]
    rfl
  · have hstep : (reject_request s (some fr.receiver_id) rid).1.requests =
        s.requests.map (fun r =>
          if r.id == rid then { r with status := "rejected" } else r) := by
      simp [reject_request, hfind, hw]
    unfold findRequestById
    rw [hstep, find?_id_map_update s.requests rid
      (fun r => { r with status := "rejected" }) (fun r => rfl) fr hfind]
    rfl

/-- Witness for the amended C4: the receiver rejecting the
already-accepted request 1 overwrites the status. -/
theorem respond_sets_status_unconditionally_witness :
    (findRequestById (reject_request exStoreC4 (some 2) 1).1 1).map
      (fun r => r.status) = some "rejected" :=
  (respond_sets_status_unconditionally exStoreC4 1
    { id := 1, sender_id := 1, receiver_id := 2, status := "accepted" }
    bob rfl rfl).2

/-- C5 counterexample: user 1 sends a request to id 99 although no user
with id 99 exists; the row is created with a dangling receiver. -/
theorem send_request_dangling_receiver :
    ((send_request exStoreC5 (some 1) 99).1.requests.map
      (fun r => r.receiver_id)) = [99] ∧
    findUserById (send_request exStoreC5 (some 1) 99).1 99 = none :=
  ⟨rfl, rfl⟩

/-- C5 amended: sendRequest performs no existence check on the receiver:
even when no user carries the receiver id it creates the pending request
(and the notification row addressed to the nonexistent receiver), so a
FriendRequest row may reference a nonexistent receiver user. -/
theorem send_request_no_receiver_check (s : Store) (A B : Nat) (sender : User)
    (hA : findUserById s A = some sender)
    (hB : findUserById s B = none)
    (hnone : s.requests.find? (fun r => r.sender_id == A && r.receiver_id == B) =
      none) :
    (send_request s (some A) B).1.requests =
      s.requests ++
        [{ id := s.nextRequestId, sender_id := A, receiver_id := B,
           status := "pending" }] ∧
    findUserById (send_request s (some A) B).1 B = none := by
  have husers : (send_request s (some A) B).1.users = s.users := by
    simp [send_request, hnone, hA]
  constructor
  · simp [send_request, hnone, hA]
  · unfold findUserById
    rw [husers]
    exact hB

/-- Witness for the amended C5: the single-user store, sending to the
absent id 99. -/
theorem send_request_no_receiver_check_witness :
    (send_request exStoreC5 (some 1) 99).1.requests =
      exStoreC5.requests ++
        [{ id := 1, sender_id := 1, receiver_id := 99, status := "pending" }] ∧
    findUserById (send_request exStoreC5 (some 1) 99).1 99 = none :=
  send_request_no_receiver_check exStoreC5 1 99 alice rfl rfl rfl

/-- C6: after user a sends user b a friend request and b accepts it,
b appears in a's friends list and a appears in b's friends list. -/
theorem accept_makes_mutual_friends (s : Store) (a b : User)
    (ha : findUserById s a.id = some a) (hb : findUserById s b.id = some b)
    (hnone : s.requests.find? (fun r =>
      r.sender_id == a.id && r.receiver_id == b.id) = none)
    (hfresh : ∀ r ∈ s.requests, r.id ≠ s.nextRequestId) :
    b ∈ friendsList (accept_request (send_request s (some a.id) b.id).1
        (some b.id) s.nextRequestId).1 a.id ∧
    a ∈ friendsList (accept_request (send_request s (some a.id) b.id).1
        (some b.id) s.nextRequestId).1 b.id := by
  have h1 : (send_request s (some a.id) b.id).1 =
      { s with
          requests := s.requests ++
            [{ id := s.nextRequestId, sender_id := a.id, receiver_id := b.id,
               status := "pending" }],
          nextRequestId := s.nextRequestId + 1,
          notifs := s.notifs ++
            [{ id := s.nextNotifId, user_id := b.id,
               message := a.username ++ " sent you a friend request!" }],
          nextNotifId := s.nextNotifId + 1 } := by
    simp [send_request, hnone, ha]
  have h1req : (send_request s (some a.id) b.id).1.requests =
      s.requests ++
        [{ id := s.nextRequestId, sender_id := a.id, receiver_id := b.id,
           status := "pending" }] := by
    rw [h1]
  have h1users : (send_request s (some a.id) b.id).1.users = s.users := by
    rw [h1]
  have hfind1 : findRequestById (send_request s (some a.id) b.id).1
      s.nextRequestId =
      some { id := s.nextRequestId, sender_id := a.id, receiver_id := b.id,
             status := "pending" } := by
    unfold findRequestById
    rw [h1req]
    exact find?_id_append_fresh s.requests
      { id := s.nextRequestId, sender_id := a.id, receiver_id := b.id,
        status := "pending" } hfresh
  have hbuser : findUserById (send_request s (some a.id) b.id).1 b.id =
      some b := by
    unfold findUserById
    rw [h1users]
    exact hb
  have hs2req : (accept_request (send_request s (some a.id) b.id).1
        (some b.id) s.nextRequestId).1.requests =
      ((send_request s (some a.id) b.id).1.requests).map
        (fun r => if r.id == s.nextRequestId then { r with status := "accepted" }
          else r) := by
    simp [accept_request, hfind1, hbuser]
  have hs2users : (accept_request (send_request s (some a.id) b.id).1
        (some b.id) s.nextRequestId).1.users = s.users := by
    simp [accept_request, hfind1, hbuser, h1users]
  have hmemreq : ({ id := s.nextRequestId,
                    sender_id := a.id,
                    receiver_id := b.id,
                    status := "accepted" } : FriendRequest) ∈
      (accept_request (send_request s (some a.id) b.id).1
        (some b.id) s.nextRequestId).1.requests := by
    rw [hs2req, h1req, List.map_append]
    refine List.mem_append_right _ ?_
    simp
  constructor
  · refine List.mem_filter.mpr ⟨?_, ?_⟩
    · rw [hs2users]
      exact List.mem_of_find?_eq_some hb
    · have hm : b.id ∈ friend_ids (accept_request
          (send_request s (some a.id) b.id).1 (some b.id) s.nextRequestId).1
          a.id := by
        unfold friend_ids
        refine List.mem_append_left _ ?_
        exact List.mem_map.mpr
          ⟨{ id := s.nextRequestId, sender_id := a.id, receiver_id := b.id,
             status := "accepted" },
           List.mem_filter.mpr ⟨hmemreq, by simp⟩, rfl⟩
      simpa [List.contains] using hm
  · refine List.mem_filter.mpr ⟨?_, ?_⟩
    · rw [hs2users]
      exact List.mem_of_find?_eq_some ha
    · have hm : a.id ∈ friend_ids (accept_request
          (send_request s (some a.id) b.id).1 (some b.id) s.nextRequestId).1
          b.id := by
        unfold friend_ids
        refine List.mem_append_right _ ?_
        exact List.mem_map.mpr
          ⟨{ id := s.nextRequestId, sender_id := a.id, receiver_id := b.id,
             status := "accepted" },
           List.mem_filter.mpr ⟨hmemreq, by simp⟩, rfl⟩
      simpa [List.contains] using hm

/-- Witness for C6: bob requests alice, alice accepts; each is in the
other's friends list. -/
theorem accept_makes_mutual_friends_witness :
    alice ∈ friendsList (accept_request (send_request exStore (some 2) 1).1
        (some 1) 2).1 2 ∧
    bob ∈ friendsList (accept_request (send_request exStore (some 2) 1).1
        (some 1) 2).1 1 :=
  accept_makes_mutual_friends exStore bob alice rfl rfl rfl (by decide)

/-- C7: login with a stored user's username and correct raw password
binds the session to that user's id; a wrong password or unknown
username leaves the session and the store untouched. -/
theorem login_correctness (s : Store) (sess : Session) (u : User)
    (hu : u ∈ s.users)
    (huniq : (s.users.map (fun v => v.username)).Nodup) :
    (∀ p, check_password_hash u.password p = true →
        login s sess u.username p = (s, some u.id, .redirectHome)) ∧
    (∀ p, check_password_hash u.password p = false →
        login s sess u.username p = (s, sess, .render "login")) ∧
    (∀ name p, (∀ v ∈ s.users, v.username ≠ name) →
        login s sess name p = (s, sess, .render "login")) := by
  have hfind : findUserByUsername s u.username = some u :=
    find?_username_unique s.users u hu huniq
  refine ⟨?_, ?_, ?_⟩
  · intro p hp
    simp [login, hfind, hp]
  · intro p hp
    simp [login, hfind, hp]
  · intro name p hnone
    have hmiss : findUserByUsername s name = none := by
      apply List.find?_eq_none.mpr
      intro v hv
      simp [hnone v hv]
    simp [login, hmiss]

/-- Witness for C7: alice logs in with her password and gets a session
bound to id 1; a wrong password changes nothing. -/
theorem login_correctness_witness :
    login exStore none "alice" "alicepw" = (exStore, some 1, .redirectHome) ∧
    login exStore none "alice" "wrong" = (exStore, none, .render "login") :=
  ⟨(login_correctness exStore none alice (by decide) (by decide)).1
      "alicepw" (by decide),
   (login_correctness exStore none alice (by decide) (by decide)).2.1
      "wrong" (by decide)⟩

/-- C9: deleting a post as a session user who is not its owner leaves
the whole store unchanged and redirects to the home view. -/
theorem delete_nonowner_noop (s : Store) (uid pid : Nat) (p : Post)
    (hfind : findPostById s pid = some p) (hne : uid ≠ p.user_id) :
    delete s (some uid) pid = (s, .redirectHome) := by
  have hb : (some uid == some p.user_id) = false := by
    simp [hne]
  simp [delete, hfind, hb]

/-- Witness for C9: bob (user 2) deleting alice's post 1 changes
nothing and lands on home. -/
theorem delete_nonowner_noop_witness :
    delete exStore (some 2) 1 = (exStore, .redirectHome) :=
  delete_nonowner_noop exStore 2 1
    { id := 1, title := "hello", content := "first post", user_id := 1 }
    rfl (by decide)

/-- C8 counterexample: deleting post 1 with no session leaves the store
unchanged but redirects to home, not to the login page as claimed. -/
theorem unauthenticated_delete_redirects_home :
    delete exStore none 1 = (exStore, .redirectHome) ∧
    Response.redirectHome ≠ Response.redirectLogin :=
  ⟨rfl, by decide⟩

/-- C8 amended: with no session every protected route leaves the store
unchanged, but only the routes with an explicit session check redirect
to login; edit and delete (on an existing post) silently redirect home,
and accept/reject (on an existing request) redirect to the
friend-requests page. -/
theorem unauthenticated_requests_no_mutation (s : Store) (pid rid B : Nat)
    (form : Option (String × String)) (q : Option String)
    (pform : Option (String × Option String × Option String)) :
    home s none = (s, .redirectLogin) ∧
    create s none form = (s, .redirectLogin) ∧
    send_request s none B = (s, .redirectLogin) ∧
    friends s none = (s, .redirectLogin) ∧
    friend_requests s none = (s, .redirectLogin) ∧
    search_users s none q = (s, .redirectLogin) ∧
    profile s none = (s, .redirectLogin) ∧
    edit_profile s none pform = (s, .redirectLogin) ∧
    (edit s none pid form).1 = s ∧
    (∀ p, findPostById s pid = some p →
      edit s none pid form = (s, .redirectHome)) ∧
    (delete s none pid).1 = s ∧
    (∀ p, findPostById s pid = some p →
      delete s none pid = (s, .redirectHome)) ∧
    (accept_request s none rid).1 = s ∧
    (∀ fr, findRequestById s rid = some fr →
      accept_request s none rid = (s, .redirectFriendRequests)) ∧
    (reject_request s none rid).1 = s ∧
    (∀ fr, findRequestById s rid = some fr →
      reject_request s none rid = (s, .redirectFriendRequests)) := by
  refine ⟨rfl, rfl, rfl, rfl, rfl, rfl, rfl, rfl, ?_, ?_, ?_, ?_, ?_, ?_, ?_, ?_⟩
  · rcases hp : findPostById s pid with _ | p <;> simp [edit, hp]
  · intro p hp
    simp [edit, hp]
  · rcases hp : findPostById s pid with _ | p <;> simp [delete, hp]
  · intro p hp
    simp [delete, hp]
  · rcases hr : findRequestById s rid with _ | fr <;> simp [accept_request, hr]
  · intro fr hr
    simp [accept_request, hr]
  · rcases hr : findRequestById s rid with _ | fr <;> simp [reject_request, hr]
  · intro fr hr
    simp [reject_request, hr]

/-- Witness for the amended C8: an unauthenticated delete of the
existing post 1 is a silent no-op redirect to home. -/
theorem unauthenticated_requests_no_mutation_witness :
    delete exStore none 1 = (exStore, .redirectHome) :=
  (unauthenticated_requests_no_mutation exStore 1 1 2 none none
      none).2.2.2.2.2.2.2.2.2.2.2.1
    { id := 1, title := "hello", content := "first post", user_id := 1 } rfl

/-- n successive invocations of the accept route by the same session on
the same request id. -/
def acceptIter (s : Store) (sess : Session) (rid : Nat) : Nat → Store
  | 0 => s
  | n + 1 => (accept_request (acceptIter s sess rid n) sess rid).1

theorem acceptIter_invariant (s : Store) (rid : Nat)
    (fr : FriendRequest) (w : User)
    (hfind : findRequestById s rid = some fr)
    (hw : findUserById s fr.receiver_id = some w) (n : Nat) :
    (acceptIter s (some fr.receiver_id) rid n).users = s.users ∧
    findRequestById (acceptIter s (some fr.receiver_id) rid n) rid =
      some (if n = 0 then fr else { fr with status := "accepted" }) ∧
    ((acceptIter s (some fr.receiver_id) rid n).notifs.filter
        (fun nt => nt.user_id == fr.sender_id)).length =
      (s.notifs.filter (fun nt => nt.user_id == fr.sender_id)).length + n := by
  induction n with
  | zero => exact ⟨rfl, by simpa using hfind, rfl⟩
  | succ n ih =>
    obtain ⟨ihu, ihf, ihn⟩ := ih
    have hrecv : (if n = 0 then fr
        else { fr with status := "accepted" }).receiver_id = fr.receiver_id := by
      by_cases hn : n = 0 <;> simp [hn]
    have hsend : (if n = 0 then fr
        else { fr with status := "accepted" }).sender_id = fr.sender_id := by
      by_cases hn : n = 0 <;> simp [hn]
    have hwn : findUserById (acceptIter s (some fr.receiver_id) rid n)
        fr.receiver_id = some w := by
      unfold findUserById
      rw [ihu]
      exact hw
    have hstep : (accept_request (acceptIter s (some fr.receiver_id) rid n)
        (some fr.receiver_id) rid).1 =
        { acceptIter s (some fr.receiver_id) rid n with
            requests := (acceptIter s (some fr.receiver_id) rid n).requests.map
              (fun r => if r.id == rid then { r with status := "accepted" }
                else r),
            notifs := (acceptIter s (some fr.receiver_id) rid n).notifs ++
              [{ id := (acceptIter s (some fr.receiver_id) rid n).nextNotifId,
                 user_id := fr.sender_id,
                 message := w.username ++ " accepted your friend request!" }],
            nextNotifId :=
              (acceptIter s (some fr.receiver_id) rid n).nextNotifId + 1 } := by
      simp [accept_request, ihf, hrecv, hsend, hwn]
    refine ⟨?_, ?_, ?_⟩
    · show (accept_request (acceptIter s (some fr.receiver_id) rid n)
        (some fr.receiver_id) rid).1.users = s.users
      rw [hstep]
      exact ihu
    · show findRequestById (accept_request
        (acceptIter s (some fr.receiver_id) rid n)
          (some fr.receiver_id) rid).1 rid = _
      unfold findRequestById
      rw [hstep]
      have := find?_id_map_update
        (acceptIter s (some fr.receiver_id) rid n).requests rid
        (fun r => { r with status := "accepted" }) (fun r => rfl) _ ihf
      rw [this]
      by_cases hn : n = 0 <;> simp [hn]
    · show ((accept_request (acceptIter s (some fr.receiver_id) rid n)
        (some fr.receiver_id) rid).1.notifs.filter
          (fun nt => nt.user_id == fr.sender_id)).length = _
      rw [hstep]
      show (((acceptIter s (some fr.receiver_id) rid n).notifs ++ _).filter
        (fun nt => nt.user_id == fr.sender_id)).length = _
      rw [List.filter_append, List.length_append, ihn]
      simp [List.filter]
      ring

/-- C10: repeated authorized accepts of the same request are not
idempotent on the store — after n calls the status is 'accepted', yet
each call appended one more notification to the sender, for n in
total. -/
theorem accept_repeated_notifications (s : Store) (rid : Nat)
    (fr : FriendRequest) (w : User)
    (hfind : findRequestById s rid = some fr)
    (hw : findUserById s fr.receiver_id = some w) (n : Nat) :
    ((acceptIter s (some fr.receiver_id) rid n).notifs.filter
        (fun nt => nt.user_id == fr.sender_id)).length =
      (s.notifs.filter (fun nt => nt.user_id == fr.sender_id)).length + n ∧
    (1 ≤ n → (findRequestById (acceptIter s (some fr.receiver_id) rid n)
        rid).map (fun r => r.status) = some "accepted") := by
  obtain ⟨-, hf, hn⟩ := acceptIter_invariant s rid fr w hfind hw n
  refine ⟨hn, fun h1 => ?_⟩
  rw [hf]
  have hne : ¬ n = 0 := by omega
  simp [hne]

/-- Witness for C10: bob accepts the pending request 1 twice; the status
is 'accepted' and alice has received two notifications. -/
theorem accept_repeated_notifications_witness :
    ((acceptIter exStore (some 2) 1 2).notifs.filter
        (fun nt => nt.user_id == 1)).length = 2 ∧
    (findRequestById (acceptIter exStore (some 2) 1 2) 1).map
      (fun r => r.status) = some "accepted" :=
  ⟨(accept_repeated_notifications exStore 1
      { id := 1, sender_id := 1, receiver_id := 2, status := "pending" }
      bob rfl rfl 2).1,
   (accept_repeated_notifications exStore 1
      { id := 1, sender_id := 1, receiver_id := 2, status := "pending" }
      bob rfl rfl 2).2 (by decide)⟩

end Blog
